import Mathlib

/-!
Shallow embedding of `src/web/api.py` (EncryptionAPIHandler): a small HTTP
gateway that serves `/api/status`, static files on GET, and two transform
endpoints `/api/encrypt` and `/api/decrypt` on POST which shell out to an
external Java worker through two scratch files under `/tmp`.

Modelling choices, all taken from the source:
  * the filesystem is a partial map from path strings to file contents
    (`FS`); `os.path.exists`/`os.path.isfile` is `fs p = some _`, Python's
    `open(p,'w').write(c)` is `fsWrite`;
  * `subprocess.run(cmd)` is an abstract `Worker`: a function from the
    argument vector and the filesystem to an exit code and a new
    filesystem.  The source ignores the returned `CompletedProcess`, so the
    embedding records the exit code only in the observable trace;
  * `json.loads` is abstracted by the request carrying
    `Option ReqBody`: `none` models a body on which `json.loads` raises,
    `some data` models a decoded JSON object whose optional `text` and
    `key` fields mirror `data.get('text', '')` / `data.get('key', 3)`
    (the key is modelled as an integer);
  * `json.dumps` on the one-key string dictionaries the source builds is
    implemented character by character (`pyJsonDumpsStr`), including
    Python's default `ensure_ascii=True` escaping;
  * an uncaught Python exception (which makes the handler send no
    response at all) is the `Outcome.exn` constructor;
  * every externally visible side effect of a handler run is recorded in
    an effect trace, so "the worker is never invoked" and "no file is
    written" are statements about the trace.
-/

namespace EncryptorApi

/-- The filesystem: a partial map from absolute path strings to file
contents.  `some c` means the path names an existing regular file with
contents `c`. -/
def FS : Type := String → Option String

/-- Python `open(p, 'w')` followed by `f.write(c)`: update the map at `p`. -/
def fsWrite (fs : FS) (p c : String) : FS :=
  fun q => if q = p then some c else fs q

/-- One hexadecimal digit, lowercase, as produced by Python's `json.dumps`
escape sequences. -/
def hexDigit (n : Nat) : Char :=
  if n < 10 then Char.ofNat (48 + n) else Char.ofNat (87 + n)

/-- Four hexadecimal digits, as in a `\uXXXX` escape. -/
def hex4 (n : Nat) : String :=
  String.mk [hexDigit (n / 4096 % 16), hexDigit (n / 256 % 16),
             hexDigit (n / 16 % 16), hexDigit (n % 16)]

/-- Python `json.dumps` escaping of a single character with the default
`ensure_ascii=True`: the two-character escapes for quote, backslash and
the common control characters, `\uXXXX` for the remaining control and all
non-ASCII characters (astral characters become a surrogate pair). -/
def pyJsonEscapeChar (c : Char) : String :=
  if c = '"' then "\\\""
  else if c = '\\' then "\\\\"
  else if c = '\n' then "\\n"
  else if c = '\r' then "\\r"
  else if c = '\t' then "\\t"
  else if c.toNat = 8 then "\\b"
  else if c.toNat = 12 then "\\f"
  else if c.toNat < 32 then "\\u" ++ hex4 c.toNat
  else if c.toNat < 127 then String.singleton c
  else if c.toNat < 65536 then "\\u" ++ hex4 c.toNat
  else
    let v := c.toNat - 65536
    "\\u" ++ hex4 (55296 + v / 1024) ++ "\\u" ++ hex4 (56320 + v % 1024)

/-- Python `json.dumps` on a string value. -/
def pyJsonDumpsStr (s : String) : String :=
  "\"" ++ String.join (s.toList.map pyJsonEscapeChar) ++ "\""

/-- `json.dumps({"result": r})`: the body of a successful transform
response. -/
def dumpsResult (r : String) : String :=
  "\x7b" ++ pyJsonDumpsStr "result" ++ ": " ++ pyJsonDumpsStr r ++ "\x7d"

/-- `json.dumps({"status": "running"})`: the body of the status
endpoint's response. -/
def statusBody : String :=
  "\x7b" ++ pyJsonDumpsStr "status" ++ ": " ++ pyJsonDumpsStr "running" ++ "\x7d"

/-- The headers sent by `_set_headers(content_type)`: the content type and
the three CORS headers, in source order. -/
def corsHeaders (ct : String) : List (String × String) :=
  [("Content-type", ct),
   ("Access-Control-Allow-Origin", "*"),
   ("Access-Control-Allow-Methods", "GET, POST, OPTIONS"),
   ("Access-Control-Allow-Headers", "Content-Type")]

/-- What the handler sends back on one request: either a full HTTP
response (status, headers, body) or an uncaught Python exception, in
which case no response is written. -/
inductive Outcome where
  | response (status : Nat) (headers : List (String × String)) (body : String)
  | exn (name : String)
deriving DecidableEq

/-- The status code of an outcome, `none` when an exception escaped and
no response was sent. -/
def Outcome.statusCode : Outcome → Option Nat
  | .response s _ _ => some s
  | .exn _ => none

/-- Externally visible side effects of one handler run, in order. -/
inductive Effect where
  | readBody (n : Nat)
  | fileWrite (path content : String)
  | runWorker (cmd : List String) (exitCode : Nat)
  | fileRead (path : String)
deriving DecidableEq

/-- The paths of the files a trace writes, in order. -/
def writePaths (t : List Effect) : List String :=
  t.filterMap fun e =>
    match e with
    | .fileWrite p _ => some p
    | _ => none

/-- The paths of the files a trace reads, in order. -/
def readPaths (t : List Effect) : List String :=
  t.filterMap fun e =>
    match e with
    | .fileRead p => some p
    | _ => none

/-- The argument vectors of the worker invocations in a trace, in order. -/
def workerCalls (t : List Effect) : List (List String) :=
  t.filterMap fun e =>
    match e with
    | .runWorker c _ => some c
    | _ => none

/-- Python `s.startswith(p)`, computed on the character lists. -/
def strStartsWith (s p : String) : Bool :=
  List.isPrefixOf p.data s.data

/-- Python `s.endswith(p)`, computed on the character lists. -/
def strEndsWith (s p : String) : Bool :=
  List.isSuffixOf p.data s.data

/-- Python `self.path.lstrip('/')`: drop every leading slash. -/
def lstripSlash (s : String) : String :=
  String.mk (s.data.dropWhile (fun c => c = '/'))

/-- Python `os.path.join(a, b)` for two path components: an absolute `b`
replaces `a`, otherwise the two are joined with exactly one separator. -/
def osPathJoin (a b : String) : String :=
  if strStartsWith b "/" then b
  else if a = "" then b
  else if strEndsWith a "/" then a ++ b
  else a ++ "/" ++ b

/-- The result of a GET handler run: the outcome and the effect trace. -/
structure GetResult where
  outcome : Outcome
  trace : List Effect
deriving DecidableEq

/-- `do_GET`: `/api/status` answers 200 with the running-status JSON;
every other path is treated as a static file request, joined (unresolved)
onto the working directory, served with 200 when it names an existing
file, and answered 404 with no headers otherwise. -/
def doGET (fs : FS) (cwd : String) (path : String) : GetResult :=
  if path = "/api/status" then
    ⟨.response 200 (corsHeaders "application/json") statusBody, []⟩
  else
    let filePath := osPathJoin cwd (lstripSlash path)
    match fs filePath with
    | some content =>
        let ct := if strEndsWith filePath ".html" then "text/html" else "text/plain"
        ⟨.response 200 (corsHeaders ct) content, [.fileRead filePath]⟩
    | none =>
        ⟨.response 404 [] "", []⟩

/-- `do_OPTIONS`: `_set_headers()` alone, a bare 200 with the CORS
headers and no body. -/
def doOPTIONS : GetResult :=
  ⟨.response 200 (corsHeaders "application/json") "", []⟩

/-- One decoded JSON request body.  The fields are optional: the source
reads them with `data.get('text', '')` and `data.get('key', 3)`. -/
structure ReqBody where
  text : Option String
  key : Option Int
deriving DecidableEq

/-- One POST request as the handler sees it: the request path, the
declared `Content-Length`, and the result of `json.loads` on the body
(`none` when decoding raises). -/
structure PostRequest where
  path : String
  contentLength : Nat
  body : Option ReqBody
deriving DecidableEq

/-- The external worker process (`subprocess.run(cmd)`): from the
argument vector and the current filesystem to an exit code and the
filesystem it leaves behind. -/
def Worker : Type := List String → FS → Nat × FS

/-- The result of a POST handler run: the outcome, the effect trace, and
the filesystem left behind. -/
structure PostResult where
  outcome : Outcome
  trace : List Effect
  fs : FS

/-- `do_POST`, transcribed branch by branch.  On `/api/encrypt`: read the
body, decode it (an undecodable body raises and ends the run), write the
`text` field (default `''`) to `/tmp/input.txt`, run the worker with the
literal command line ending in mode `'1'`, ignore its exit status, read
`/tmp/output.txt` (a missing file raises), and answer 200 with the result
JSON.  `/api/decrypt` is the same text with mode `'2'`.  Any other path
is a 404 with no headers. -/
def doPOST (worker : Worker) (req : PostRequest) (fs : FS) : PostResult :=
  if req.path = "/api/encrypt" then
    match req.body with
    | none =>
        ⟨.exn "json.decoder.JSONDecodeError", [.readBody req.contentLength], fs⟩
    | some data =>
        let fs1 := fsWrite fs "/tmp/input.txt" (data.text.getD "")
        let cmd : List String :=
          ["java", "-cp", "../bin", "WebAppLauncher",
           "/tmp/input.txt", "/tmp/output.txt", toString (data.key.getD 3), "1"]
        let proc := worker cmd fs1
        match proc.2 "/tmp/output.txt" with
        | none =>
            ⟨.exn "FileNotFoundError",
             [.readBody req.contentLength,
              .fileWrite "/tmp/input.txt" (data.text.getD ""),
              .runWorker cmd proc.1], proc.2⟩
        | some result =>
            ⟨.response 200 (corsHeaders "application/json") (dumpsResult result),
             [.readBody req.contentLength,
              .fileWrite "/tmp/input.txt" (data.text.getD ""),
              .runWorker cmd proc.1, .fileRead "/tmp/output.txt"], proc.2⟩
  else if req.path = "/api/decrypt" then
    match req.body with
    | none =>
        ⟨.exn "json.decoder.JSONDecodeError", [.readBody req.contentLength], fs⟩
    | some data =>
        let fs1 := fsWrite fs "/tmp/input.txt" (data.text.getD "")
        let cmd : List String :=
          ["java", "-cp", "../bin", "WebAppLauncher",
           "/tmp/input.txt", "/tmp/output.txt", toString (data.key.getD 3), "2"]
        let proc := worker cmd fs1
        match proc.2 "/tmp/output.txt" with
        | none =>
            ⟨.exn "FileNotFoundError",
             [.readBody req.contentLength,
              .fileWrite "/tmp/input.txt" (data.text.getD ""),
              .runWorker cmd proc.1], proc.2⟩
        | some result =>
            ⟨.response 200 (corsHeaders "application/json") (dumpsResult result),
             [.readBody req.contentLength,
              .fileWrite "/tmp/input.txt" (data.text.getD ""),
              .runWorker cmd proc.1, .fileRead "/tmp/output.txt"], proc.2⟩
  else
    ⟨.response 404 [] "", [], fs⟩

/-- The two transform branches of `do_POST`, written once with the mode
code as a parameter.  `do_POST`'s `/api/encrypt` branch is
`transformHandler "1"` and its `/api/decrypt` branch is
`transformHandler "2"`; the equivalence is proved below. -/
def transformHandler (mode : String) (worker : Worker) (req : PostRequest)
    (fs : FS) : PostResult :=
  match req.body with
  | none =>
      ⟨.exn "json.decoder.JSONDecodeError", [.readBody req.contentLength], fs⟩
  | some data =>
      let fs1 := fsWrite fs "/tmp/input.txt" (data.text.getD "")
      let cmd : List String :=
        ["java", "-cp", "../bin", "WebAppLauncher",
         "/tmp/input.txt", "/tmp/output.txt", toString (data.key.getD 3), mode]
      let proc := worker cmd fs1
      match proc.2 "/tmp/output.txt" with
      | none =>
          ⟨.exn "FileNotFoundError",
           [.readBody req.contentLength,
            .fileWrite "/tmp/input.txt" (data.text.getD ""),
            .runWorker cmd proc.1], proc.2⟩
      | some result =>
          ⟨.response 200 (corsHeaders "application/json") (dumpsResult result),
           [.readBody req.contentLength,
            .fileWrite "/tmp/input.txt" (data.text.getD ""),
            .runWorker cmd proc.1, .fileRead "/tmp/output.txt"], proc.2⟩

/-- The command line the source builds for the external worker: the Java
launcher prefix followed by the worker's four arguments — input path,
output path, stringified key, mode code. -/
def workerCmd (key : Int) (mode : String) : List String :=
  ["java", "-cp", "../bin", "WebAppLauncher",
   "/tmp/input.txt", "/tmp/output.txt", toString key, mode]

/-- The header list of an outcome; a handler that raised sent nothing. -/
def headersOf : Outcome → List (String × String)
  | .response _ hs _ => hs
  | .exn _ => []

/-- A worker that exits 0 and leaves the filesystem unchanged. -/
def c1worker : Worker := fun _ fs => (0, fs)

/-- A filesystem holding only a previous run's output file. -/
def c1fs : FS := fun p => if p = "/tmp/output.txt" then some "out" else none

/-- A first concrete transform session. -/
def c1req1 : PostRequest := ⟨"/api/encrypt", 17, some ⟨some "AAA", none⟩⟩

/-- A second, different concrete transform session. -/
def c1req2 : PostRequest := ⟨"/api/encrypt", 17, some ⟨some "BBB", none⟩⟩

/-- A filesystem in which the literal joined path
`/srv/app/../etc/passwd` (a traversal escaping the working directory
`/srv/app`) names an existing file. -/
def c2fs : FS := fun p => if p = "/srv/app/../etc/passwd" then some "root:x:0:0" else none

/-- A worker that exits 0 and leaves the filesystem unchanged. -/
def c3w : Worker := fun _ fs => (0, fs)

/-- A filesystem holding an output file for the worker result. -/
def c3fs : FS := fun p => if p = "/tmp/output.txt" then some "E" else none

/-- A POST whose body `json.loads` fails to decode. -/
def c3rMalformed : PostRequest := ⟨"/api/encrypt", 7, none⟩

/-- A POST whose decoded body is missing both `text` and `key`. -/
def c3rMissing : PostRequest := ⟨"/api/encrypt", 2, some ⟨none, none⟩⟩

/-- A worker that exits with code 1 and writes nothing. -/
def c4w : Worker := fun _ fs => (1, fs)

/-- A filesystem holding a stale output file from an earlier run. -/
def c4fs : FS := fun p => if p = "/tmp/output.txt" then some "stale" else none

/-- A concrete well-formed transform request. -/
def c4req : PostRequest := ⟨"/api/encrypt", 9, some ⟨some "hi", some 4⟩⟩

/-- A worker that exits 0 and leaves the filesystem unchanged. -/
def c5w : Worker := fun _ fs => (0, fs)

/-- A filesystem holding an output file for the worker result. -/
def c5fs : FS := fun p => if p = "/tmp/output.txt" then some "E" else none

/-- A request whose declared body length, 1048577 bytes, exceeds 1MB. -/
def c5req : PostRequest := ⟨"/api/encrypt", 1048577, some ⟨some "big", none⟩⟩

/-- A worker that exits 0 and leaves the filesystem unchanged. -/
def c6w : Worker := fun _ fs => (0, fs)

/-- A filesystem holding an output file for the worker result. -/
def c6fs : FS := fun p => if p = "/tmp/output.txt" then some "E" else none

/-- A concrete encrypt request whose body omits the `key` field. -/
def c6req : PostRequest := ⟨"/api/encrypt", 5, some ⟨some "t", none⟩⟩

/-- A concrete worker implementing the identity transform in both modes:
it copies the input scratch file to the output scratch file and exits 0. -/
def c7worker : Worker := fun args fs =>
  match args with
  | [_, _, _, _, inp, outp, _, _] =>
      (0, match fs inp with
          | some t => fsWrite fs outp t
          | none => fs)
  | _ => (0, fs)

/-- An empty filesystem. -/
def c7fs : FS := fun _ => none

/-- An empty filesystem. -/
def c8fs : FS := fun _ => none

/-- Characterisation of the two transform branches of `do_POST` on a
decoded body: the handler writes the text to `/tmp/input.txt`, runs the
worker with `workerCmd`, and answers according to whether the worker left
an output file — the exit code is only recorded, never inspected. -/
theorem doPOST_transform (w : Worker) (req : PostRequest) (fs : FS) (d : ReqBody)
    (mode : String) (hb : req.body = some d)
    (hm : req.path = "/api/encrypt" ∧ mode = "1" ∨
          req.path = "/api/decrypt" ∧ mode = "2") :
    doPOST w req fs =
      (match (w (workerCmd (d.key.getD 3) mode)
               (fsWrite fs "/tmp/input.txt" (d.text.getD ""))).2 "/tmp/output.txt" with
       | none =>
           ⟨.exn "FileNotFoundError",
            [.readBody req.contentLength,
             .fileWrite "/tmp/input.txt" (d.text.getD ""),
             .runWorker (workerCmd (d.key.getD 3) mode)
               (w (workerCmd (d.key.getD 3) mode)
                 (fsWrite fs "/tmp/input.txt" (d.text.getD ""))).1],
            (w (workerCmd (d.key.getD 3) mode)
              (fsWrite fs "/tmp/input.txt" (d.text.getD ""))).2⟩
       | some result =>
           ⟨.response 200 (corsHeaders "application/json") (dumpsResult result),
            [.readBody req.contentLength,
             .fileWrite "/tmp/input.txt" (d.text.getD ""),
             .runWorker (workerCmd (d.key.getD 3) mode)
               (w (workerCmd (d.key.getD 3) mode)
                 (fsWrite fs "/tmp/input.txt" (d.text.getD ""))).1,
             .fileRead "/tmp/output.txt"],
            (w (workerCmd (d.key.getD 3) mode)
              (fsWrite fs "/tmp/input.txt" (d.text.getD ""))).2⟩) := by
  rcases hm with ⟨hp, hm⟩ | ⟨hp, hm⟩ <;>
  · subst hm
    simp only [doPOST, hp, hb, workerCmd]
    simp only [String.reduceEq, reduceIte]

/-- Claim C1, amended: the scratch paths are not uniquely generated per
session — every transform session writes its input to the one fixed path
`/tmp/input.txt` and reads its result from the one fixed path
`/tmp/output.txt`, so any two sessions share both scratch paths. -/
theorem claim1_amended (w₁ w₂ : Worker) (r₁ r₂ : PostRequest)
    (fs₁ fs₂ : FS) (d₁ d₂ : ReqBody)
    (hb₁ : r₁.body = some d₁) (hb₂ : r₂.body = some d₂)
    (hp₁ : r₁.path = "/api/encrypt" ∨ r₁.path = "/api/decrypt")
    (hp₂ : r₂.path = "/api/encrypt" ∨ r₂.path = "/api/decrypt") :
    writePaths (doPOST w₁ r₁ fs₁).trace = ["/tmp/input.txt"] ∧
    writePaths (doPOST w₂ r₂ fs₂).trace = ["/tmp/input.txt"] ∧
    writePaths (doPOST w₁ r₁ fs₁).trace = writePaths (doPOST w₂ r₂ fs₂).trace ∧
    (∀ p ∈ readPaths (doPOST w₁ r₁ fs₁).trace, p = "/tmp/output.txt") ∧
    (∀ p ∈ readPaths (doPOST w₂ r₂ fs₂).trace, p = "/tmp/output.txt") := by
  have key : ∀ (w : Worker) (r : PostRequest) (fs : FS) (d : ReqBody),
      r.body = some d → (r.path = "/api/encrypt" ∨ r.path = "/api/decrypt") →
      writePaths (doPOST w r fs).trace = ["/tmp/input.txt"] ∧
      ∀ p ∈ readPaths (doPOST w r fs).trace, p = "/tmp/output.txt" := by
    intro w r fs d hb hp
    rcases hp with hp | hp
    · rw [doPOST_transform w r fs d "1" hb (Or.inl ⟨hp, rfl⟩)]
      split <;> simp [writePaths, readPaths]
    · rw [doPOST_transform w r fs d "2" hb (Or.inr ⟨hp, rfl⟩)]
      split <;> simp [writePaths, readPaths]
  obtain ⟨hw₁, hr₁⟩ := key w₁ r₁ fs₁ d₁ hb₁ hp₁
  obtain ⟨hw₂, hr₂⟩ := key w₂ r₂ fs₂ d₂ hb₂ hp₂
  exact ⟨hw₁, hw₂, by rw [hw₁, hw₂], hr₁, hr₂⟩

/-- Claim C1, witness: the amended theorem applied to the two concrete
sessions `c1req1` and `c1req2`. -/
theorem claim1_witness :
    writePaths (doPOST c1worker c1req1 c1fs).trace = ["/tmp/input.txt"] ∧
    writePaths (doPOST c1worker c1req2 c1fs).trace = ["/tmp/input.txt"] ∧
    writePaths (doPOST c1worker c1req1 c1fs).trace =
      writePaths (doPOST c1worker c1req2 c1fs).trace ∧
    (∀ p ∈ readPaths (doPOST c1worker c1req1 c1fs).trace, p = "/tmp/output.txt") ∧
    (∀ p ∈ readPaths (doPOST c1worker c1req2 c1fs).trace, p = "/tmp/output.txt") :=
  claim1_amended c1worker c1worker c1req1 c1req2 c1fs c1fs ⟨some "AAA", none⟩
    ⟨some "BBB", none⟩ rfl rfl (Or.inl rfl) (Or.inl rfl)

/-- Claim C1, counterexample: two distinct concrete sessions use exactly
the same scratch write path and the same scratch read paths, refuting the
claimed per-session uniqueness of the two paths. -/
theorem claim1_counterexample :
    c1req1 ≠ c1req2 ∧
    writePaths (doPOST c1worker c1req1 c1fs).trace =
      writePaths (doPOST c1worker c1req2 c1fs).trace ∧
    readPaths (doPOST c1worker c1req1 c1fs).trace =
      readPaths (doPOST c1worker c1req2 c1fs).trace ∧
    writePaths (doPOST c1worker c1req1 c1fs).trace = ["/tmp/input.txt"] := by
  refine ⟨by decide, rfl, rfl, rfl⟩

/-- Claim C2, amended: `do_GET` performs no traversal check and never
responds 403 on any request; any non-status path whose (unresolved)
join onto the working directory names an existing file — a traversal
path included — is served with 200 and the file's bytes. -/
theorem claim2_amended (fs : FS) (cwd p : String) :
    (doGET fs cwd p).outcome.statusCode ≠ some 403 ∧
    (∀ content, p ≠ "/api/status" →
      fs (osPathJoin cwd (lstripSlash p)) = some content →
      (doGET fs cwd p).outcome =
        .response 200
          (corsHeaders (if strEndsWith (osPathJoin cwd (lstripSlash p)) ".html"
            then "text/html" else "text/plain"))
          content) := by
  constructor
  · unfold doGET
    split
    · simp [Outcome.statusCode]
    · dsimp only
      split <;> simp [Outcome.statusCode]
  · intro content hne hex
    unfold doGET
    rw [if_neg hne]
    dsimp only
    rw [hex]

/-- Claim C2, witness: the amended theorem applied to the concrete
traversal request `/../etc/passwd` against working directory `/srv/app`. -/
theorem claim2_witness :
    (doGET c2fs "/srv/app" "/../etc/passwd").outcome.statusCode ≠ some 403 ∧
    (doGET c2fs "/srv/app" "/../etc/passwd").outcome =
      .response 200 (corsHeaders "text/plain") "root:x:0:0" := by
  have h := claim2_amended c2fs "/srv/app" "/../etc/passwd"
  exact ⟨h.1, h.2 "root:x:0:0" (by decide) rfl⟩

/-- Claim C2, counterexample: the GET for `/../etc/passwd`, which
resolves outside the working directory `/srv/app`, is not rejected with
403 — the handler serves the file's bytes with status 200. -/
theorem claim2_counterexample :
    (doGET c2fs "/srv/app" "/../etc/passwd").outcome.statusCode ≠ some 403 ∧
    doGET c2fs "/srv/app" "/../etc/passwd" =
      ⟨.response 200 (corsHeaders "text/plain") "root:x:0:0",
       [.fileRead "/srv/app/../etc/passwd"]⟩ := by
  exact ⟨by decide, by decide⟩

/-- Claim C3, amended: a malformed JSON body makes the handler raise an
uncaught decode exception — no response at all is sent, in particular no
400, though the worker is indeed never invoked; and a body missing the
required fields is not rejected at all: the defaults (empty text, key 3)
are used and the worker is invoked. -/
theorem claim3_amended (w : Worker) (req : PostRequest) (fs : FS)
    (hp : req.path = "/api/encrypt" ∨ req.path = "/api/decrypt") :
    (req.body = none →
      doPOST w req fs =
        ⟨.exn "json.decoder.JSONDecodeError", [.readBody req.contentLength], fs⟩ ∧
      workerCalls (doPOST w req fs).trace = []) ∧
    (req.body = some ⟨none, none⟩ →
      workerCalls (doPOST w req fs).trace =
        [workerCmd 3 (if req.path = "/api/encrypt" then "1" else "2")] ∧
      (doPOST w req fs).outcome.statusCode ≠ some 400) := by
  constructor
  · intro hb
    have : doPOST w req fs =
        ⟨.exn "json.decoder.JSONDecodeError", [.readBody req.contentLength], fs⟩ := by
      rcases hp with hp | hp <;> simp [doPOST, hp, hb]
    exact ⟨this, by rw [this]; rfl⟩
  · intro hb
    rcases hp with hp | hp
    · rw [doPOST_transform w req fs ⟨none, none⟩ "1" hb (Or.inl ⟨hp, rfl⟩), hp]
      split <;> simp [workerCalls, Outcome.statusCode]
    · rw [doPOST_transform w req fs ⟨none, none⟩ "2" hb (Or.inr ⟨hp, rfl⟩), hp]
      split <;> simp [workerCalls, Outcome.statusCode]

/-- Claim C3, witness: the amended theorem applied to a concrete
malformed body and a concrete body with both fields missing. -/
theorem claim3_witness :
    (doPOST c3w c3rMalformed c3fs =
      ⟨.exn "json.decoder.JSONDecodeError", [.readBody 7], c3fs⟩) ∧
    workerCalls (doPOST c3w c3rMissing c3fs).trace = [workerCmd 3 "1"] := by
  refine ⟨((claim3_amended c3w c3rMalformed c3fs (Or.inl rfl)).1 rfl).1, ?_⟩
  have h := ((claim3_amended c3w c3rMissing c3fs (Or.inl rfl)).2 rfl).1
  simpa using h

/-- Claim C3, counterexample: the concrete malformed body is answered
with no 400 (the handler raises instead of responding), and the concrete
body with missing fields does invoke the worker, refuting both the
claimed 400 and the claimed worker suppression for missing fields. -/
theorem claim3_counterexample :
    (doPOST c3w c3rMalformed c3fs).outcome.statusCode ≠ some 400 ∧
    (doPOST c3w c3rMalformed c3fs).outcome = .exn "json.decoder.JSONDecodeError" ∧
    workerCalls (doPOST c3w c3rMissing c3fs).trace ≠ [] := by
  refine ⟨by decide, by decide, by decide⟩

/-- Claim C4, amended: the handler never inspects the worker's exit
code. Whatever the exit code `ec`, if `/tmp/output.txt` exists after the
worker ran, the handler answers 200 with its contents; it never answers
500, and it performs no scratch cleanup — the final filesystem is exactly
the one the worker left behind, scratch files included. -/
theorem claim4_amended (w : Worker) (req : PostRequest) (fs : FS) (d : ReqBody)
    (mode : String) (ec : Nat) (fs2 : FS) (result : String)
    (hb : req.body = some d)
    (hm : req.path = "/api/encrypt" ∧ mode = "1" ∨
          req.path = "/api/decrypt" ∧ mode = "2")
    (hw : w (workerCmd (d.key.getD 3) mode)
            (fsWrite fs "/tmp/input.txt" (d.text.getD "")) = (ec, fs2))
    (hout : fs2 "/tmp/output.txt" = some result) :
    (doPOST w req fs).outcome =
      .response 200 (corsHeaders "application/json") (dumpsResult result) ∧
    (doPOST w req fs).outcome.statusCode ≠ some 500 ∧
    (doPOST w req fs).fs = fs2 ∧
    (doPOST w req fs).trace =
      [.readBody req.contentLength, .fileWrite "/tmp/input.txt" (d.text.getD ""),
       .runWorker (workerCmd (d.key.getD 3) mode) ec,
       .fileRead "/tmp/output.txt"] := by
  rw [doPOST_transform w req fs d mode hb hm, hw]
  simp only [hout]
  simp [Outcome.statusCode]

/-- Claim C4, witness: the amended theorem applied to a concrete worker
that exits with code 1 and writes nothing, over a stale output file. -/
theorem claim4_witness :
    (doPOST c4w c4req c4fs).outcome =
      .response 200 (corsHeaders "application/json") (dumpsResult "stale") ∧
    (doPOST c4w c4req c4fs).outcome.statusCode ≠ some 500 ∧
    (doPOST c4w c4req c4fs).fs =
      fsWrite c4fs "/tmp/input.txt" "hi" ∧
    (doPOST c4w c4req c4fs).trace =
      [.readBody 9, .fileWrite "/tmp/input.txt" "hi",
       .runWorker (workerCmd 4 "1") 1, .fileRead "/tmp/output.txt"] :=
  claim4_amended c4w c4req c4fs ⟨some "hi", some 4⟩ "1" 1
    (fsWrite c4fs "/tmp/input.txt" "hi") "stale" rfl (Or.inl ⟨rfl, rfl⟩) rfl rfl

/-- Claim C4, counterexample: with a worker that exits 1, the service
answers 200 — not 500 — returning a stale output file as if the worker
had succeeded, and both scratch files are left behind. -/
theorem claim4_counterexample :
    (doPOST c4w c4req c4fs).outcome.statusCode = some 200 ∧
    (doPOST c4w c4req c4fs).outcome.statusCode ≠ some 500 ∧
    (doPOST c4w c4req c4fs).fs "/tmp/input.txt" = some "hi" ∧
    (doPOST c4w c4req c4fs).fs "/tmp/output.txt" = some "stale" := by
  refine ⟨by decide, by decide, by decide, by decide⟩

/-- Claim C5, amended: no body-size limit exists. The handler never
answers 413, and for every declared body size — however large — a decoded
transform request reads the full body and invokes the worker. -/
theorem claim5_amended (w : Worker) (req : PostRequest) (fs : FS) :
    (doPOST w req fs).outcome.statusCode ≠ some 413 ∧
    (∀ d : ReqBody, req.body = some d →
      req.path = "/api/encrypt" ∨ req.path = "/api/decrypt" →
      Effect.readBody req.contentLength ∈ (doPOST w req fs).trace ∧
      workerCalls (doPOST w req fs).trace ≠ []) := by
  constructor
  · unfold doPOST
    split
    · split
      · simp [Outcome.statusCode]
      · dsimp only
        split <;> simp [Outcome.statusCode]
    · split
      · split
        · simp [Outcome.statusCode]
        · dsimp only
          split <;> simp [Outcome.statusCode]
      · simp [Outcome.statusCode]
  · intro d hb hp
    rcases hp with hp | hp
    · rw [doPOST_transform w req fs d "1" hb (Or.inl ⟨hp, rfl⟩)]
      split <;> simp [workerCalls]
    · rw [doPOST_transform w req fs d "2" hb (Or.inr ⟨hp, rfl⟩)]
      split <;> simp [workerCalls]

/-- Claim C5, witness: the amended theorem applied to the concrete
request whose declared size is 1048577 bytes, one over 1MB. -/
theorem claim5_witness :
    (doPOST c5w c5req c5fs).outcome.statusCode ≠ some 413 ∧
    Effect.readBody 1048577 ∈ (doPOST c5w c5req c5fs).trace ∧
    workerCalls (doPOST c5w c5req c5fs).trace ≠ [] := by
  have h := claim5_amended c5w c5req c5fs
  have h2 := h.2 ⟨some "big", none⟩ rfl (Or.inl rfl)
  exact ⟨h.1, h2.1, h2.2⟩

/-- Claim C5, counterexample: a request declaring 1048577 bytes — over
the claimed 1MB maximum — is answered 200, not 413, and the worker is
invoked, refuting the claimed size check. -/
theorem claim5_counterexample :
    c5req.contentLength = 1048577 ∧ 1048576 < c5req.contentLength ∧
    (doPOST c5w c5req c5fs).outcome.statusCode = some 200 ∧
    (doPOST c5w c5req c5fs).outcome.statusCode ≠ some 413 ∧
    workerCalls (doPOST c5w c5req c5fs).trace ≠ [] := by
  refine ⟨rfl, by decide, by decide, by decide, by decide⟩

/-- Claim C6, confirmed: every transform request runs the worker exactly
once, with the Java launcher prefix followed by exactly the input path,
the output path, the stringified key (3 when the body omits it), and the
mode code — "1" for `/api/encrypt`, "2" for `/api/decrypt`. -/
theorem claim6_worker_args (w : Worker) (req : PostRequest) (fs : FS) (d : ReqBody)
    (mode : String) (hb : req.body = some d)
    (hm : req.path = "/api/encrypt" ∧ mode = "1" ∨
          req.path = "/api/decrypt" ∧ mode = "2") :
    workerCalls (doPOST w req fs).trace =
      [["java", "-cp", "../bin", "WebAppLauncher"] ++
       ["/tmp/input.txt", "/tmp/output.txt", toString (d.key.getD 3), mode]] := by
  rw [doPOST_transform w req fs d mode hb hm]
  split <;> simp [workerCalls, workerCmd]

/-- Claim C6, witness: the theorem applied to a concrete encrypt request
whose body omits the key, so the stringified default "3" is passed. -/
theorem claim6_witness :
    workerCalls (doPOST c6w c6req c6fs).trace =
      [["java", "-cp", "../bin", "WebAppLauncher"] ++
       ["/tmp/input.txt", "/tmp/output.txt", "3", "1"]] := by
  have h := claim6_worker_args c6w c6req c6fs ⟨some "t", none⟩ "1" rfl (Or.inl ⟨rfl, rfl⟩)
  exact h

/-- Claim C7, confirmed: for a worker that implements an invertible
transform — mode "1" writes `enc key` of the input scratch file to the
output scratch file, mode "2" writes `dec key`, and `dec key` inverts
`enc key` — encrypting any text and then decrypting the returned result
with the same key yields the original text. -/
theorem claim7_roundtrip (w : Worker) (enc dec : Int → String → String)
    (hw : ∀ (fs : FS) (k : Int) (t : String), fs "/tmp/input.txt" = some t →
        (w (workerCmd k "1") fs).2 = fsWrite fs "/tmp/output.txt" (enc k t) ∧
        (w (workerCmd k "2") fs).2 = fsWrite fs "/tmp/output.txt" (dec k t))
    (hinv : ∀ k t, dec k (enc k t) = t)
    (text : String) (key : Int) (n₁ n₂ : Nat) (fs₁ fs₂ : FS) :
    (doPOST w ⟨"/api/encrypt", n₁, some ⟨some text, some key⟩⟩ fs₁).outcome =
      .response 200 (corsHeaders "application/json") (dumpsResult (enc key text)) ∧
    (doPOST w ⟨"/api/decrypt", n₂, some ⟨some (enc key text), some key⟩⟩ fs₂).outcome =
      .response 200 (corsHeaders "application/json") (dumpsResult text) := by
  constructor
  · rw [doPOST_transform w _ fs₁ ⟨some text, some key⟩ "1" rfl (Or.inl ⟨rfl, rfl⟩)]
    have h1 : (fsWrite fs₁ "/tmp/input.txt" text) "/tmp/input.txt" = some text := by
      simp [fsWrite]
    have h2 := (hw (fsWrite fs₁ "/tmp/input.txt" text) key text h1).1
    simp only [Option.getD_some]
    rw [h2]
    simp [fsWrite]
  · rw [doPOST_transform w _ fs₂ ⟨some (enc key text), some key⟩ "2" rfl
        (Or.inr ⟨rfl, rfl⟩)]
    have h1 : (fsWrite fs₂ "/tmp/input.txt" (enc key text)) "/tmp/input.txt" =
        some (enc key text) := by
      simp [fsWrite]
    have h2 := (hw (fsWrite fs₂ "/tmp/input.txt" (enc key text)) key (enc key text) h1).2
    simp only [Option.getD_some]
    rw [h2, hinv key text]
    simp [fsWrite]

/-- Claim C7, witness: the round-trip theorem applied to the concrete
identity worker `c7worker`, text "hello" and key 5. -/
theorem claim7_witness :
    (doPOST c7worker ⟨"/api/encrypt", 3, some ⟨some "hello", some 5⟩⟩ c7fs).outcome =
      .response 200 (corsHeaders "application/json") (dumpsResult "hello") ∧
    (doPOST c7worker ⟨"/api/decrypt", 4, some ⟨some "hello", some 5⟩⟩ c7fs).outcome =
      .response 200 (corsHeaders "application/json") (dumpsResult "hello") := by
  refine claim7_roundtrip c7worker (fun _ t => t) (fun _ t => t) ?_
    (fun _ _ => rfl) "hello" 5 3 4 c7fs c7fs
  intro fs k t hfs
  constructor <;> simp [c7worker, workerCmd, hfs]

/-- Claim C8, amended: only the responses sent through `_set_headers` —
every 200, including the OPTIONS reply — carry the content-type and the
three CORS headers; the 404 error responses of both `do_GET` and
`do_POST` are sent with no headers at all, and a handler that raises
sends no response. -/
theorem claim8_amended (fs : FS) (cwd p : String) (w : Worker) (req : PostRequest)
    (fsp : FS) :
    ((doGET fs cwd p).outcome = .response 404 [] "" ∨
      ∃ ct b, (doGET fs cwd p).outcome = .response 200 (corsHeaders ct) b) ∧
    ((doPOST w req fsp).outcome = .response 404 [] "" ∨
      (∃ b, (doPOST w req fsp).outcome =
        .response 200 (corsHeaders "application/json") b) ∨
      ∃ e, (doPOST w req fsp).outcome = .exn e) ∧
    doOPTIONS.outcome = .response 200 (corsHeaders "application/json") "" := by
  refine ⟨?_, ?_, rfl⟩
  · unfold doGET
    split
    · exact Or.inr ⟨"application/json", statusBody, rfl⟩
    · dsimp only
      split
      · exact Or.inr ⟨_, _, rfl⟩
      · exact Or.inl rfl
  · unfold doPOST
    split
    · split
      · exact Or.inr (Or.inr ⟨_, rfl⟩)
      · dsimp only
        split
        · exact Or.inr (Or.inr ⟨_, rfl⟩)
        · exact Or.inr (Or.inl ⟨_, rfl⟩)
    · split
      · split
        · exact Or.inr (Or.inr ⟨_, rfl⟩)
        · dsimp only
          split
          · exact Or.inr (Or.inr ⟨_, rfl⟩)
          · exact Or.inr (Or.inl ⟨_, rfl⟩)
      · exact Or.inl rfl

/-- Claim C8, counterexample: the 404 for a missing static file carries
an empty header list — no Content-Type and none of the three CORS
headers — refuting the claim that every response carries them. -/
theorem claim8_counterexample :
    (doGET c8fs "/srv" "/nope").outcome = .response 404 [] "" ∧
    headersOf (doGET c8fs "/srv" "/nope").outcome = [] := by
  exact ⟨by decide, by decide⟩

/-- Claim C9, confirmed: a GET for `/api/status` always answers 200 with
body `(json.dumps of) status: running` and the standard headers, with an
empty effect trace — no file is read or written and no worker is invoked
(`do_GET` does not even take a worker), whatever the filesystem. -/
theorem claim9_status (fs : FS) (cwd : String) :
    doGET fs cwd "/api/status" =
      ⟨.response 200 (corsHeaders "application/json")
        "\x7b\"status\": \"running\"\x7d", []⟩ := rfl

/-- Claim C10, confirmed: on every request body, filesystem and worker,
the `/api/encrypt` branch of `do_POST` is exactly the generic transform
handler at mode "1" and the `/api/decrypt` branch is exactly the same
handler at mode "2" — same scratch paths, same text and key extraction
with defaults, same worker command and same response shape, differing
only in the mode argument. -/
theorem claim10_branches (w : Worker) (n : Nat) (b : Option ReqBody) (fs : FS) :
    doPOST w ⟨"/api/encrypt", n, b⟩ fs =
      transformHandler "1" w ⟨"/api/encrypt", n, b⟩ fs ∧
    doPOST w ⟨"/api/decrypt", n, b⟩ fs =
      transformHandler "2" w ⟨"/api/decrypt", n, b⟩ fs :=
  ⟨rfl, rfl⟩

end EncryptorApi
